import Mathlib

/-!
Verification of the pricing/profit calculation engine.

The engine has two near-duplicate implementations:
* `Calculator` embeds the `ProfitCalculator` class of `calculator.py`
  (fee-model-driven, "Variant 1");
* `ProfitCalculator` embeds the `ProfitCalculator` class of
  `profit_calculator.py` (simple-cap, "Variant 2").

Python `float` arithmetic is modelled over `ℚ` (exact field arithmetic),
`None` as `Option.none`.  The fee configuration of `config.py` is a record
of the seven keys read by `calculator.py`; `Config.get` on a missing key
returns `None`, which is modelled by `CfgMap`, a record of optional values
(an arithmetic operation on `None` raises `TypeError` in Python, which the
functions catch and turn into a `None` result; in the embedding this is
`Option.bind` in the same key-lookup order).
-/

/-- Fee configuration with all seven keys present, as in the default
`Config.settings` of `config.py`. -/
structure Fees where
  ebay_listing_fee : ℚ
  promote_listing_fee : ℚ
  lowest_profit_margin : ℚ
  ebay_seller_fee : ℚ
  ship_to_me_cost : ℚ
  auction_buyer_premium : ℚ
  texas_sales_tax : ℚ
deriving Repr, DecidableEq

/-- Fee configuration in which any key may be missing: `Config.get`
(`config.py`) returns `self.settings.get(key)`, i.e. `None` when the key
is absent. -/
structure CfgMap where
  ebay_listing_fee : Option ℚ
  promote_listing_fee : Option ℚ
  lowest_profit_margin : Option ℚ
  ebay_seller_fee : Option ℚ
  ship_to_me_cost : Option ℚ
  auction_buyer_premium : Option ℚ
  texas_sales_tax : Option ℚ
deriving Repr, DecidableEq

namespace Calculator

/-- Embeds `ProfitCalculator.calculate_grand_average_price` of
`calculator.py`: each of the three sources is appended to `prices`
when it `is not None`; if `prices` is empty the result is `None`,
otherwise `sum(prices) / len(prices)`. -/
def calculate_grand_average_price
    (ebay_avg_sold ebay_avg_listed amazon_price : Option ℚ) : Option ℚ :=
  let prices : List ℚ :=
    (match ebay_avg_sold with | some v => [v] | none => []) ++
    (match ebay_avg_listed with | some v => [v] | none => []) ++
    (match amazon_price with | some v => [v] | none => [])
  if prices.isEmpty then none
  else some (prices.sum / prices.length)

/-- Embeds `ProfitCalculator.calculate_recommended_highest_bid` of
`calculator.py`, with all seven fee keys present (the default config).
`None` input propagates; a zero denominator gives `None`; otherwise
`numerator / denominator` is returned unconditionally. -/
def calculate_recommended_highest_bid
    (grand_average_price : Option ℚ) (config : Fees) : Option ℚ :=
  match grand_average_price with
  | none => none
  | some p =>
    let price_multiplier := 1 - config.ebay_listing_fee
      - config.promote_listing_fee - config.lowest_profit_margin
    let numerator := p * price_multiplier
      - config.ebay_seller_fee - config.ship_to_me_cost
    let denominator := 1 + config.auction_buyer_premium + config.texas_sales_tax
    if denominator = 0 then none
    else some (numerator / denominator)

/-- Embeds `ProfitCalculator.calculate_current_profit_margin` of
`calculator.py`, with all seven fee keys present.  The guard
`grand_average_price is None or grand_average_price == 0` returns `None`
before any arithmetic; otherwise the margin percentage is returned. -/
def calculate_current_profit_margin
    (current_bid : ℚ) (grand_average_price : Option ℚ) (config : Fees) :
    Option ℚ :=
  match grand_average_price with
  | none => none
  | some p =>
    if p = 0 then none
    else
      let total_cost := current_bid * (1 + config.auction_buyer_premium
        + config.texas_sales_tax) + config.ship_to_me_cost
      let revenue_multiplier := 1 - config.ebay_listing_fee
        - config.promote_listing_fee
      let potential_revenue := p * revenue_multiplier - config.ebay_seller_fee
      let profit := potential_revenue - total_cost
      some (profit / p * 100)

/-- Embeds `calculate_recommended_highest_bid` when the fee keys are read
through `Config.get`, which yields `None` for a missing key; arithmetic on
`None` raises `TypeError`, caught by the `except` clause and turned into a
`None` result, hence the `Option.bind` chain in the source's lookup order. -/
def recommended_highest_bid_cfg
    (grand_average_price : Option ℚ) (config : CfgMap) : Option ℚ :=
  match grand_average_price with
  | none => none
  | some p =>
    config.ebay_listing_fee.bind fun lf =>
    config.promote_listing_fee.bind fun pf =>
    config.lowest_profit_margin.bind fun m =>
    config.ebay_seller_fee.bind fun sf =>
    config.ship_to_me_cost.bind fun sh =>
    config.auction_buyer_premium.bind fun bp =>
    config.texas_sales_tax.bind fun st =>
      let numerator := p * (1 - lf - pf - m) - sf - sh
      let denominator := 1 + bp + st
      if denominator = 0 then none
      else some (numerator / denominator)

/-- Embeds `calculate_current_profit_margin` when the fee keys are read
through `Config.get` (missing key → `None` → `TypeError` caught → `None`
result).  The `grand_average_price` guard runs before any key lookup, as
in the source. -/
def current_profit_margin_cfg
    (current_bid : ℚ) (grand_average_price : Option ℚ) (config : CfgMap) :
    Option ℚ :=
  match grand_average_price with
  | none => none
  | some p =>
    if p = 0 then none
    else
      config.ebay_listing_fee.bind fun lf =>
      config.promote_listing_fee.bind fun pf =>
      config.ebay_seller_fee.bind fun sf =>
      config.auction_buyer_premium.bind fun bp =>
      config.texas_sales_tax.bind fun st =>
      config.ship_to_me_cost.bind fun sh =>
        let profit := (p * (1 - lf - pf) - sf)
          - (current_bid * (1 + bp + st) + sh)
        some (profit / p * 100)

end Calculator

namespace ProfitCalculator

/-- Embeds `ProfitCalculator.calculate_grand_average_price` of
`profit_calculator.py`: each source is appended to `prices` under a Python
truthiness test (`if ebay_avg_sold:`), so a present value equal to `0` is
discarded along with `None`. -/
def calculate_grand_average_price
    (ebay_avg_sold ebay_avg_listed amazon_price : Option ℚ) : Option ℚ :=
  let keep : Option ℚ → List ℚ := fun x =>
    match x with
    | some v => if v = 0 then [] else [v]
    | none => []
  let prices : List ℚ :=
    keep ebay_avg_sold ++ keep ebay_avg_listed ++ keep amazon_price
  if prices.isEmpty then none
  else some (prices.sum / prices.length)

/-- Embeds `ProfitCalculator.calculate_recommended_highest_bid` of
`profit_calculator.py`: the guard `if not grand_average_price` returns
`None` both for `None` and for a zero price; otherwise the bid is
`min(price * max_bid_percent / 100, price)`. -/
def calculate_recommended_highest_bid
    (grand_average_price : Option ℚ) (max_bid_percent : ℚ) : Option ℚ :=
  match grand_average_price with
  | none => none
  | some p =>
    if p = 0 then none
    else some (min (p * (max_bid_percent / 100)) p)

/-- Embeds `ProfitCalculator.calculate_current_profit_margin` of
`profit_calculator.py`: the guard `if not grand_average_price` returns
`None` both for `None` and for a zero price; otherwise the margin is
`(price - current_bid) / price * 100`. -/
def calculate_current_profit_margin
    (current_bid : ℚ) (grand_average_price : Option ℚ) : Option ℚ :=
  match grand_average_price with
  | none => none
  | some p =>
    if p = 0 then none
    else some ((p - current_bid) / p * 100)

end ProfitCalculator

/-- Reference aggregator, written from the spec's words: discard the absent
(`None`) observations; if none remain the result is absent, otherwise the
unweighted arithmetic mean of the remaining values. -/
def spec_reference_aggregate (o1 o2 o3 : Option ℚ) : Option ℚ :=
  let vals : List ℚ := o1.toList ++ o2.toList ++ o3.toList
  if vals.isEmpty then none
  else some (vals.sum / vals.length)

/-- Default fee values of `Config.settings` in `config.py`
(0.13, 0.02, 0.35, 0.40, 0.0, 0.15, 0.0825). -/
def defaultFees : Fees :=
  ⟨13/100, 2/100, 35/100, 2/5, 0, 15/100, 33/400⟩

/-- Configuration in which every required fee key is missing, so every
`Config.get` lookup yields `None`. -/
def emptyCfg : CfgMap :=
  ⟨none, none, none, none, none, none, none⟩

/-- Binding any option into the constant `none` yields `none`. -/
theorem bind_const_none {α β : Type} (x : Option α) :
    (x.bind fun _ => (none : Option β)) = none := by
  cases x <;> rfl

/-- Claim C3 (amended): the `calculator.py` aggregator equals the
spec's reference aggregator on every input triple; the
`profit_calculator.py` aggregator equals it whenever no observation is a
present zero (a present zero is discarded there by the truthiness test). -/
theorem C3_aggregator_matches_reference (o1 o2 o3 : Option ℚ) :
    Calculator.calculate_grand_average_price o1 o2 o3 =
      spec_reference_aggregate o1 o2 o3 ∧
    (o1 ≠ some 0 → o2 ≠ some 0 → o3 ≠ some 0 →
      ProfitCalculator.calculate_grand_average_price o1 o2 o3 =
        spec_reference_aggregate o1 o2 o3) := by
  constructor
  · cases o1 <;> cases o2 <;> cases o3 <;> rfl
  · intro h1 h2 h3
    cases o1 <;> cases o2 <;> cases o3 <;>
      simp_all [ProfitCalculator.calculate_grand_average_price,
        spec_reference_aggregate]

/-- Claim C3 witness: at the triple `(some 1, none, none)` both
implementations agree with the reference aggregator. -/
theorem C3_aggregator_matches_reference_witness :
    Calculator.calculate_grand_average_price (some 1) none none =
      spec_reference_aggregate (some 1) none none ∧
    ProfitCalculator.calculate_grand_average_price (some 1) none none =
      spec_reference_aggregate (some 1) none none :=
  ⟨(C3_aggregator_matches_reference (some 1) none none).1,
   (C3_aggregator_matches_reference (some 1) none none).2
     (by simp) (fun h => nomatch h) (fun h => nomatch h)⟩

/-- Claim C3 counterexample: on the triple `(none, some 0, none)` the
`profit_calculator.py` aggregator returns `none` while the reference
aggregator returns `some 0`, so the aggregator does not equal the
reference on every input triple. -/
theorem C3_counterexample :
    ProfitCalculator.calculate_grand_average_price none (some 0) none ≠
      spec_reference_aggregate none (some 0) none := by
  have h1 : ProfitCalculator.calculate_grand_average_price none (some 0) none
      = none := by
    norm_num [ProfitCalculator.calculate_grand_average_price]
  have h2 : spec_reference_aggregate none (some 0) none = some 0 := by
    norm_num [spec_reference_aggregate]
  rw [h1, h2]
  exact fun h => nomatch h

/-- Claim C4 (amended): a present observation with value exactly 0 is kept
by the `calculator.py` aggregator, which returns `some 0` on
`(some 0, none, none)`. -/
theorem C4_present_zero_kept :
    Calculator.calculate_grand_average_price (some 0) none none = some 0 := by
  norm_num [Calculator.calculate_grand_average_price]

/-- Claim C4 counterexample: the `profit_calculator.py` aggregator treats a
present zero as absent and returns `none` on `(some 0, none, none)`,
refuting the claim that both implementations return `0.0` there. -/
theorem C4_counterexample :
    ProfitCalculator.calculate_grand_average_price (some 0) none none =
      none := by
  norm_num [ProfitCalculator.calculate_grand_average_price]

/-- Claim C5: whenever `auction_buyer_premium + texas_sales_tax = -1`, the
denominator `1 + auction_buyer_premium + texas_sales_tax` is zero and
`calculate_recommended_highest_bid` of `calculator.py` returns `none`,
for every (optional) representative price. -/
theorem C5_zero_denominator_absent (gap : Option ℚ) (f : Fees)
    (h : f.auction_buyer_premium + f.texas_sales_tax = -1) :
    Calculator.calculate_recommended_highest_bid gap f = none := by
  cases gap with
  | none => rfl
  | some p =>
    have hd : 1 + f.auction_buyer_premium + f.texas_sales_tax = 0 := by
      linarith
    simp [Calculator.calculate_recommended_highest_bid, hd]

/-- Claim C5 witness: with buyer premium `-1` and sales tax `0` the
recommended bid at price 100 is `none`. -/
theorem C5_zero_denominator_absent_witness :
    Calculator.calculate_recommended_highest_bid (some 100)
      ⟨0, 0, 0, 0, 0, -1, 0⟩ = none :=
  C5_zero_denominator_absent (some 100) ⟨0, 0, 0, 0, 0, -1, 0⟩ (by norm_num)

/-- Claim C7: for every positive representative price and every
`max_bid_percent`, the simple-cap recommended bid of
`profit_calculator.py` is defined and at most the representative price. -/
theorem C7_simple_cap_le_price (p max_bid_percent : ℚ) (hp : 0 < p) :
    ∃ b, ProfitCalculator.calculate_recommended_highest_bid (some p)
        max_bid_percent = some b ∧ b ≤ p := by
  refine ⟨min (p * (max_bid_percent / 100)) p, ?_, min_le_right _ _⟩
  simp [ProfitCalculator.calculate_recommended_highest_bid, hp.ne']

/-- Claim C7 witness: at price 1 and `max_bid_percent = 250` the simple-cap
bid is defined and at most 1. -/
theorem C7_simple_cap_le_price_witness :
    ∃ b, ProfitCalculator.calculate_recommended_highest_bid (some 1) 250 =
        some b ∧ b ≤ 1 :=
  C7_simple_cap_le_price 1 250 (by norm_num)

/-- Claim C8: if the representative price is absent or exactly 0, both
implementations of `calculate_current_profit_margin` return `none`, for
every bid and fee configuration. -/
theorem C8_margin_guard_absent (current_bid : ℚ) (f : Fees)
    (gap : Option ℚ) (h : gap = none ∨ gap = some 0) :
    Calculator.calculate_current_profit_margin current_bid gap f = none ∧
    ProfitCalculator.calculate_current_profit_margin current_bid gap =
      none := by
  rcases h with rfl | rfl <;>
    exact ⟨by simp [Calculator.calculate_current_profit_margin],
      by simp [ProfitCalculator.calculate_current_profit_margin]⟩

/-- Claim C8 witness: at bid 5, default fees and representative price
`some 0`, both margins are `none`. -/
theorem C8_margin_guard_absent_witness :
    Calculator.calculate_current_profit_margin 5 (some 0) defaultFees =
      none ∧
    ProfitCalculator.calculate_current_profit_margin 5 (some 0) = none :=
  C8_margin_guard_absent 5 defaultFees (some 0) (Or.inr rfl)

/-- Claim C10: the simple-cap `calculate_recommended_highest_bid` of
`profit_calculator.py` returns `none` when the representative price is
exactly 0, for every `max_bid_percent`: the truthiness guard treats a zero
price like an absent one. -/
theorem C10_simple_cap_zero_price_absent (max_bid_percent : ℚ) :
    ProfitCalculator.calculate_recommended_highest_bid (some 0)
      max_bid_percent = none := by
  simp [ProfitCalculator.calculate_recommended_highest_bid]

/-- Claim C1: round-trip identity of Variant 1.  For every positive
representative price and every fee configuration with nonzero denominator,
the recommended bid is defined, and feeding it back into
`calculate_current_profit_margin` yields exactly
`lowest_profit_margin * 100` (exact over `ℚ`, hence within any
floating-point tolerance). -/
theorem C1_round_trip (p : ℚ) (f : Fees) (hp : 0 < p)
    (hd : 1 + f.auction_buyer_premium + f.texas_sales_tax ≠ 0) :
    ∃ b, Calculator.calculate_recommended_highest_bid (some p) f = some b ∧
      Calculator.calculate_current_profit_margin b (some p) f =
        some (f.lowest_profit_margin * 100) := by
  have hp' : p ≠ 0 := hp.ne'
  refine ⟨(p * (1 - f.ebay_listing_fee - f.promote_listing_fee
      - f.lowest_profit_margin) - f.ebay_seller_fee - f.ship_to_me_cost)
      / (1 + f.auction_buyer_premium + f.texas_sales_tax), ?_, ?_⟩
  · simp [Calculator.calculate_recommended_highest_bid, hd]
  · simp [Calculator.calculate_current_profit_margin, hp']
    field_simp
    ring

/-- Claim C1 witness: at the spec's end-to-end example (price 150, the
default fees of `config.py`) the recommended bid exists and its margin is
`0.35 * 100`. -/
theorem C1_round_trip_witness :
    ∃ b, Calculator.calculate_recommended_highest_bid (some 150)
        defaultFees = some b ∧
      Calculator.calculate_current_profit_margin b (some 150) defaultFees =
        some (35/100 * 100) :=
  C1_round_trip 150 defaultFees (by norm_num) (by norm_num [defaultFees])

/-- Claim C2 counterexample: with all fees zero except a flat seller fee
of 2, the bid formula at price 1 evaluates to `-1`, and
`calculate_recommended_highest_bid` returns `some (-1)` — a negative
value — rather than the `none` the claim requires. -/
theorem C2_counterexample :
    Calculator.calculate_recommended_highest_bid (some 1)
      ⟨0, 0, 0, 2, 0, 0, 0⟩ = some (-1) := by
  norm_num [Calculator.calculate_recommended_highest_bid]

/-- Claim C2 (amended): `calculate_recommended_highest_bid` of
`calculator.py` performs no sign check: for every present price and every
fee configuration with nonzero denominator it returns
`numerator / denominator` unconditionally, negative or not; `none` is
returned only for an absent price or a zero denominator. -/
theorem C2_negative_passthrough (p : ℚ) (f : Fees)
    (hd : 1 + f.auction_buyer_premium + f.texas_sales_tax ≠ 0) :
    Calculator.calculate_recommended_highest_bid (some p) f =
      some ((p * (1 - f.ebay_listing_fee - f.promote_listing_fee
        - f.lowest_profit_margin) - f.ebay_seller_fee - f.ship_to_me_cost)
        / (1 + f.auction_buyer_premium + f.texas_sales_tax)) := by
  simp [Calculator.calculate_recommended_highest_bid, hd]

/-- Claim C2 witness: the pass-through theorem applied at price 1 with a
flat seller fee of 2, where the returned quotient is negative. -/
theorem C2_negative_passthrough_witness :
    Calculator.calculate_recommended_highest_bid (some 1)
      ⟨0, 0, 0, 2, 0, 0, 0⟩ =
      some (((1 : ℚ) * (1 - 0 - 0 - 0) - 2 - 0) / (1 + 0 + 0)) :=
  C2_negative_passthrough 1 ⟨0, 0, 0, 2, 0, 0, 0⟩ (by norm_num)

/-- Claim C6: for a fee configuration satisfying the spec's invariant that
rate fields are non-negative, and a fixed positive price, both margin
implementations are defined and strictly decreasing in the bid. -/
theorem C6_margin_strictly_decreasing (f : Fees) (p b1 b2 : ℚ)
    (hbp : 0 ≤ f.auction_buyer_premium) (hst : 0 ≤ f.texas_sales_tax)
    (hp : 0 < p) (hb : b1 < b2) :
    ∃ m1 m2 n1 n2,
      Calculator.calculate_current_profit_margin b1 (some p) f = some m1 ∧
      Calculator.calculate_current_profit_margin b2 (some p) f = some m2 ∧
      m2 < m1 ∧
      ProfitCalculator.calculate_current_profit_margin b1 (some p) =
        some n1 ∧
      ProfitCalculator.calculate_current_profit_margin b2 (some p) =
        some n2 ∧
      n2 < n1 := by
  have hp' : p ≠ 0 := hp.ne'
  have hD : (0:ℚ) < 1 + f.auction_buyer_premium + f.texas_sales_tax := by
    linarith
  refine ⟨(p * (1 - f.ebay_listing_fee - f.promote_listing_fee)
        - f.ebay_seller_fee
        - (b1 * (1 + f.auction_buyer_premium + f.texas_sales_tax)
          + f.ship_to_me_cost)) / p * 100,
      (p * (1 - f.ebay_listing_fee - f.promote_listing_fee)
        - f.ebay_seller_fee
        - (b2 * (1 + f.auction_buyer_premium + f.texas_sales_tax)
          + f.ship_to_me_cost)) / p * 100,
      (p - b1) / p * 100, (p - b2) / p * 100, ?_, ?_, ?_, ?_, ?_, ?_⟩
  · simp [Calculator.calculate_current_profit_margin, hp']
  · simp [Calculator.calculate_current_profit_margin, hp']
  · have hA : b1 * (1 + f.auction_buyer_premium + f.texas_sales_tax)
        < b2 * (1 + f.auction_buyer_premium + f.texas_sales_tax) :=
      mul_lt_mul_of_pos_right hb hD
    exact mul_lt_mul_of_pos_right
      ((div_lt_div_iff_of_pos_right hp).mpr (by linarith)) (by norm_num)
  · simp [ProfitCalculator.calculate_current_profit_margin, hp']
  · simp [ProfitCalculator.calculate_current_profit_margin, hp']
  · exact mul_lt_mul_of_pos_right
      ((div_lt_div_iff_of_pos_right hp).mpr (by linarith)) (by norm_num)

/-- Claim C6 witness: with the default fees, price 150 and bids 10 < 20,
both margins are defined and the margin at 20 is strictly lower. -/
theorem C6_margin_strictly_decreasing_witness :
    ∃ m1 m2 n1 n2,
      Calculator.calculate_current_profit_margin 10 (some 150) defaultFees =
        some m1 ∧
      Calculator.calculate_current_profit_margin 20 (some 150) defaultFees =
        some m2 ∧
      m2 < m1 ∧
      ProfitCalculator.calculate_current_profit_margin 10 (some 150) =
        some n1 ∧
      ProfitCalculator.calculate_current_profit_margin 20 (some 150) =
        some n2 ∧
      n2 < n1 :=
  C6_margin_strictly_decreasing defaultFees 150 10 20
    (by norm_num [defaultFees]) (by norm_num [defaultFees])
    (by norm_num) (by norm_num)

/-- Claim C9: whenever any fee key required by an operation is missing
(its `Config.get` lookup yields `none`), that operation returns `none`:
`calculate_recommended_highest_bid` needs all seven keys and
`calculate_current_profit_margin` needs its six; both embeddings are total
functions, so no exception escapes to the caller. -/
theorem C9_missing_key_absent (gap : Option ℚ) (current_bid : ℚ)
    (c : CfgMap) :
    ((c.ebay_listing_fee = none ∨ c.promote_listing_fee = none ∨
      c.lowest_profit_margin = none ∨ c.ebay_seller_fee = none ∨
      c.ship_to_me_cost = none ∨ c.auction_buyer_premium = none ∨
      c.texas_sales_tax = none) →
      Calculator.recommended_highest_bid_cfg gap c = none) ∧
    ((c.ebay_listing_fee = none ∨ c.promote_listing_fee = none ∨
      c.ebay_seller_fee = none ∨ c.auction_buyer_premium = none ∨
      c.texas_sales_tax = none ∨ c.ship_to_me_cost = none) →
      Calculator.current_profit_margin_cfg current_bid gap c = none) := by
  obtain ⟨k1, k2, k3, k4, k5, k6, k7⟩ := c
  cases gap with
  | none => exact ⟨fun _ => rfl, fun _ => rfl⟩
  | some p =>
    constructor <;>
      [rintro (h | h | h | h | h | h | h); rintro (h | h | h | h | h | h)] <;>
      subst h <;>
      simp [Calculator.recommended_highest_bid_cfg,
        Calculator.current_profit_margin_cfg, bind_const_none]

/-- Claim C9 witness: with every key missing, both operations return
`none` at price 100 and bid 10. -/
theorem C9_missing_key_absent_witness :
    Calculator.recommended_highest_bid_cfg (some 100) emptyCfg = none ∧
    Calculator.current_profit_margin_cfg 10 (some 100) emptyCfg = none :=
  ⟨(C9_missing_key_absent (some 100) 10 emptyCfg).1 (Or.inl rfl),
   (C9_missing_key_absent (some 100) 10 emptyCfg).2 (Or.inl rfl)⟩
